import Mathlib

/-!
Shallow embedding of the wallet load-testing harness
(`scripts/load_test_wallets.py` and `scripts/quick_load_test.py`).

Network effects are modelled by an explicit environment oracle (whether a
request succeeds, and what balance a `GET /wallets/{id}` returns), randomness
by an explicit RNG oracle, and every issued HTTP request is collected into a
trace.  Python floats are idealised as rationals; `round(x, 2)` is embedded
as round-half-to-even on `ℚ`, matching Python's banker's rounding.
-/

/-- An HTTP request issued by the harness against the wallet service. -/
inductive Request where
  | postCreateWallet (walletId ownerId : String) (initialBalance : ℚ)
  | postCredit (walletId : String) (amount : ℚ)
  | postDebit (walletId : String) (amount : ℚ)
  | postTransfer (fromWallet toWallet : String) (amount : ℚ)
  | getWallet (walletId : String)
  | getLedger (walletId : String)
  deriving DecidableEq, Repr

/-- `random.choice(l)`: picks an element of `l` (index supplied by the RNG
oracle, reduced mod the length); raises `IndexError` on an empty sequence,
modelled by `none`. -/
def choice (l : List α) (i : ℕ) : Option α :=
  l.get? (i % l.length)

/-- Python `round(x, 2)`: round to two decimal places, half to even. -/
def round2 (x : ℚ) : ℚ :=
  ((if 100 * x - ⌊100 * x⌋ < 1/2 then ⌊100 * x⌋
    else if 1/2 < 100 * x - ⌊100 * x⌋ then ⌊100 * x⌋ + 1
    else if Even ⌊100 * x⌋ then ⌊100 * x⌋ else ⌊100 * x⌋ + 1 : ℤ) : ℚ) / 100

/-- A well-behaved model of `random.uniform`: the draw lands in `[lo, hi]`. -/
def UniformOk (u : ℚ → ℚ → ℚ) : Prop :=
  ∀ lo hi : ℚ, lo ≤ hi → lo ≤ u lo hi ∧ u lo hi ≤ hi

/-- A well-behaved model of `random.randint`: the draw lands in `[lo, hi]`. -/
def RandintOk (g : ℕ → ℕ → ℕ) : Prop :=
  ∀ lo hi : ℕ, lo ≤ hi → lo ≤ g lo hi ∧ g lo hi ≤ hi

/-- The three operation kinds drawn by `random.choice(["credit", "debit",
"transfer"])`. -/
inductive OpKind where
  | credit | debit | transfer
  deriving DecidableEq, Repr

namespace LT
/-! ## `scripts/load_test_wallets.py` -/

/-- One entry of the `created_wallets` population (fields kept from the
service response at creation time). -/
structure Wallet where
  id : String
  ownerId : String
  balance : ℚ
  deriving DecidableEq, Repr

/-- The global `stats` dictionary. -/
structure Stats where
  wallets_created : ℕ := 0
  wallets_failed : ℕ := 0
  credits_success : ℕ := 0
  credits_failed : ℕ := 0
  debits_success : ℕ := 0
  debits_failed : ℕ := 0
  transfers_success : ℕ := 0
  transfers_failed : ℕ := 0
  deriving DecidableEq, Repr

/-- The mutable process-wide state: the population list and the stats. -/
structure RunState where
  pop : List Wallet
  st : Stats
  deriving DecidableEq, Repr

/-- RNG oracle for one loop iteration: indices consumed by `random.choice`
and the function backing `random.uniform`. -/
structure Rng where
  pick : ℕ
  pick2 : ℕ
  uniform : ℚ → ℚ → ℚ

/-- A well-behaved RNG: `uniform lo hi` lands in `[lo, hi]`. -/
def Rng.Ok (r : Rng) : Prop := UniformOk r.uniform

/-- Service behaviour for one iteration: whether the mutating POST raises,
whether the `get_wallet` GET raises, and the balance it reports. -/
structure Env where
  postOk : Bool
  getOk : Bool
  balance : String → ℚ

/-- Everything one iteration of the operations loop consumes. -/
structure Iter where
  kind : OpKind
  rng : Rng
  env : Env

/-- One iteration of the Step-3 operations loop (lines 232-318): pick a
kind, run the corresponding branch, record exactly one outcome into
`stats`; returns the updated stats and the HTTP requests issued. -/
def opStep (pop : List Wallet) (st : Stats) (it : Iter) : Stats × List Request :=
  match it.kind with
  | .credit =>
    match choice pop it.rng.pick with
    | none =>
      -- random.choice([]) raises IndexError, caught by the except clause
      ({ st with credits_failed := st.credits_failed + 1 }, [])
    | some w =>
      let amount := round2 (it.rng.uniform 10 1000)
      if it.env.postOk then
        ({ st with credits_success := st.credits_success + 1 }, [.postCredit w.id amount])
      else
        ({ st with credits_failed := st.credits_failed + 1 }, [.postCredit w.id amount])
  | .debit =>
    match choice pop it.rng.pick with
    | none => ({ st with debits_failed := st.debits_failed + 1 }, [])
    | some w =>
      if it.env.getOk then
        let current_balance := it.env.balance w.id
        let max_debit := min (current_balance * (1/2)) 500
        if 10 < max_debit then
          let amount := round2 (it.rng.uniform 10 max_debit)
          if it.env.postOk then
            ({ st with debits_success := st.debits_success + 1 },
             [.getWallet w.id, .postDebit w.id amount])
          else
            ({ st with debits_failed := st.debits_failed + 1 },
             [.getWallet w.id, .postDebit w.id amount])
        else
          -- skip if balance too low: no debit request issued
          ({ st with debits_failed := st.debits_failed + 1 }, [.getWallet w.id])
      else
        -- get_wallet raised; the GET was issued, outcome is a failure
        ({ st with debits_failed := st.debits_failed + 1 }, [.getWallet w.id])
  | .transfer =>
    if pop.length < 2 then
      ({ st with transfers_failed := st.transfers_failed + 1 }, [])
    else
      match choice pop it.rng.pick with
      | none => ({ st with transfers_failed := st.transfers_failed + 1 }, [])
      | some from_wallet =>
        match choice (pop.filter fun w => w.id ≠ from_wallet.id) it.rng.pick2 with
        | none => ({ st with transfers_failed := st.transfers_failed + 1 }, [])
        | some to_wallet =>
          if it.env.getOk then
            let current_balance := it.env.balance from_wallet.id
            let max_transfer := min (current_balance * (3/10)) 300
            if 10 < max_transfer then
              let amount := round2 (it.rng.uniform 10 max_transfer)
              if it.env.postOk then
                ({ st with transfers_success := st.transfers_success + 1 },
                 [.getWallet from_wallet.id,
                  .postTransfer from_wallet.id to_wallet.id amount])
              else
                ({ st with transfers_failed := st.transfers_failed + 1 },
                 [.getWallet from_wallet.id,
                  .postTransfer from_wallet.id to_wallet.id amount])
            else
              ({ st with transfers_failed := st.transfers_failed + 1 },
               [.getWallet from_wallet.id])
          else
            ({ st with transfers_failed := st.transfers_failed + 1 },
             [.getWallet from_wallet.id])

/-- The operations loop over the full run state: the population is consulted
but only the stats component is written. -/
def opStepS (s : RunState) (it : Iter) : RunState × List Request :=
  let r := opStep s.pop s.st it
  ({ pop := s.pop, st := r.1 }, r.2)

/-- Fold the operations loop over a list of iteration oracles. -/
def runOps (s : RunState) : List Iter → RunState × List Request
  | [] => (s, [])
  | it :: rest =>
    let r := opStepS s it
    let rec' := runOps r.1 rest
    (rec'.1, r.2 ++ rec'.2)

/-- What one iteration of the Step-1 creation loop consumes: the generated
ids, the `random.uniform(100, 10000)` backing function, whether the create
succeeds, and the service response fields on success. -/
structure BuildIter where
  walletId : String
  ownerId : String
  uniform : ℚ → ℚ → ℚ
  createOk : Bool
  respId : String
  respOwner : String
  respBalance : ℚ

/-- One iteration of the wallet-creation loop (lines 195-212). -/
def buildStep (s : RunState) (it : BuildIter) : RunState × List Request :=
  let initial_balance := round2 (it.uniform 100 10000)
  let req := Request.postCreateWallet it.walletId it.ownerId initial_balance
  if it.createOk then
    ({ pop := s.pop ++ [{ id := it.respId, ownerId := it.respOwner, balance := it.respBalance }],
       st := { s.st with wallets_created := s.st.wallets_created + 1 } }, [req])
  else
    ({ pop := s.pop,
       st := { s.st with wallets_failed := s.st.wallets_failed + 1 } }, [req])

/-- Fold of the creation loop. -/
def runBuild (s : RunState) : List BuildIter → RunState × List Request
  | [] => (s, [])
  | it :: rest =>
    let r := buildStep s it
    let rec' := runBuild r.1 rest
    (rec'.1, r.2 ++ rec'.2)

/-- Outcome of one whole run of `main` (plus the `__main__` wrapper): the
process exit code, whether the operations phase was reached, the final
state and the request trace. -/
structure MainOutcome where
  exitCode : ℕ
  opsRan : Bool
  final : RunState
  trace : List Request

/-- `main()` of `load_test_wallets.py`: build the population; if
`stats["wallets_created"] == 0` then `sys.exit(1)` before the operations
phase; otherwise run the operations loop (normal completion exits 0). -/
def main (builds : List BuildIter) (iters : List Iter) : MainOutcome :=
  let b := runBuild { pop := [], st := {} } builds
  if b.1.st.wallets_created = 0 then
    { exitCode := 1, opsRan := false, final := b.1, trace := b.2 }
  else
    let o := runOps b.1 iters
    { exitCode := 0, opsRan := true, final := o.1, trace := b.2 ++ o.2 }

/-- Top-level process outcomes handled by the `__main__` guard. -/
inductive TopLevel where
  | normal
  | interrupted
  | fault (msg : String)

/-- The `__main__` handler (lines 366-376): message printed and process
exit code for each top-level outcome. -/
def topLevelExit : TopLevel → String × ℕ
  | .normal => ("", 0)
  | .interrupted => ("\n\n⚠️  Test interrupted by user", 1)
  | .fault m => ("\n\n❌ Unexpected error: " ++ m, 1)

end LT

namespace QT
/-! ## `scripts/quick_load_test.py` -/

/-- The dictionary returned by `perform_operation` (and by the exception
handler): `success` flag, `type` string, and the amount when present. -/
structure OpResult where
  success : Bool
  type : String
  amount : Option ℕ
  deriving DecidableEq, Repr

/-- RNG oracle for one `perform_operation` call. -/
structure Rng where
  pick : ℕ
  pick2 : ℕ
  randint : ℕ → ℕ → ℕ

/-- A well-behaved RNG: `randint lo hi` lands in `[lo, hi]`. -/
def Rng.Ok (r : Rng) : Prop := RandintOk r.randint

/-- Service behaviour for one call: whether the POST raises. -/
structure Env where
  postOk : Bool

/-- `perform_operation(op_type, wallet_ids)` (lines 84-143).  Returns the
result dictionary (`none` models Python's implicit `None` when `op_type`
matches no branch) together with the HTTP requests issued. -/
def perform_operation (op_type : String) (wallet_ids : List String)
    (r : Rng) (env : Env) : Option OpResult × List Request :=
  if op_type = "credit" then
    match choice wallet_ids r.pick with
    | none => (some { success := false, type := op_type, amount := none }, [])
    | some wallet_id =>
      let amount := r.randint 10 500
      if env.postOk then
        (some { success := true, type := "credit", amount := some amount },
         [.postCredit wallet_id amount])
      else
        (some { success := false, type := op_type, amount := none },
         [.postCredit wallet_id amount])
  else if op_type = "debit" then
    match choice wallet_ids r.pick with
    | none => (some { success := false, type := op_type, amount := none }, [])
    | some wallet_id =>
      let amount := r.randint 10 200
      if env.postOk then
        (some { success := true, type := "debit", amount := some amount },
         [.postDebit wallet_id amount])
      else
        (some { success := false, type := op_type, amount := none },
         [.postDebit wallet_id amount])
  else if op_type = "transfer" then
    if wallet_ids.length < 2 then
      (some { success := false, type := "transfer", amount := none }, [])
    else
      match choice wallet_ids r.pick with
      | none => (some { success := false, type := op_type, amount := none }, [])
      | some from_wallet =>
        match choice (wallet_ids.filter fun w => w ≠ from_wallet) r.pick2 with
        | none => (some { success := false, type := op_type, amount := none }, [])
        | some to_wallet =>
          let amount := r.randint 10 300
          if env.postOk then
            (some { success := true, type := "transfer", amount := some amount },
             [.postTransfer from_wallet to_wallet amount])
          else
            (some { success := false, type := op_type, amount := none },
             [.postTransfer from_wallet to_wallet amount])
  else
    (none, [])

/-- One `{success, failed}` pair of the `stats` dictionary. -/
structure StatPair where
  success : ℕ := 0
  failed : ℕ := 0
  deriving DecidableEq, Repr

/-- The global `stats` dictionary. -/
structure Stats where
  wallets : StatPair := {}
  credit : StatPair := {}
  debit : StatPair := {}
  transfer : StatPair := {}
  deriving DecidableEq, Repr

/-- Bump the success or failed counter of one pair. -/
def StatPair.record (p : StatPair) (ok : Bool) : StatPair :=
  if ok then { p with success := p.success + 1 } else { p with failed := p.failed + 1 }

/-- `stats[result["type"]]["success"/"failed"] += 1`.  An unknown key would
raise `KeyError` in Python; that dead branch leaves the stats unchanged and
is proved unreachable for results produced by `perform_operation`. -/
def recordResult (st : Stats) (r : OpResult) : Stats :=
  if r.type = "credit" then { st with credit := st.credit.record r.success }
  else if r.type = "debit" then { st with debit := st.debit.record r.success }
  else if r.type = "transfer" then { st with transfer := st.transfer.record r.success }
  else st

/-- The string `random.choice(operations)` yields for each kind. -/
def OpKind.str : OpKind → String
  | .credit => "credit"
  | .debit => "debit"
  | .transfer => "transfer"

/-- Everything one iteration of the operations loop consumes. -/
structure Iter where
  kind : OpKind
  rng : Rng
  env : Env

/-- The mutable process-wide state of `quick_load_test.py`: the
`created_wallets` id list and the stats. -/
structure RunState where
  pop : List String
  st : Stats
  deriving DecidableEq, Repr

/-- One iteration of the sequential operations loop (lines 228-238). -/
def opStep (s : RunState) (it : Iter) : RunState × List Request :=
  let r := perform_operation (OpKind.str it.kind) s.pop it.rng it.env
  match r.1 with
  | some res => ({ pop := s.pop, st := recordResult s.st res }, r.2)
  | none => (s, r.2)

/-- Fold of the operations loop. -/
def runOps (s : RunState) : List Iter → RunState × List Request
  | [] => (s, [])
  | it :: rest =>
    let r := opStep s it
    let rec' := runOps r.1 rest
    (rec'.1, r.2 ++ rec'.2)

/-- What one `create_wallet` call consumes: the generated ids, the function
backing `random.randint(100, 5000)`, whether the POST succeeds, and the id
the service response carries. -/
structure BuildIter where
  walletId : String
  ownerId : String
  randint : ℕ → ℕ → ℕ
  createOk : Bool
  respId : String

/-- One iteration of the sequential creation loop (lines 182-191):
`create_wallet` plus the caller's recording of the result. -/
def buildStep (s : RunState) (it : BuildIter) : RunState × List Request :=
  let initial_balance : ℕ := it.randint 100 5000
  let req := Request.postCreateWallet it.walletId it.ownerId initial_balance
  if it.createOk then
    ({ pop := s.pop ++ [it.respId],
       st := { s.st with wallets := s.st.wallets.record true } }, [req])
  else
    ({ pop := s.pop,
       st := { s.st with wallets := s.st.wallets.record false } }, [req])

/-- Fold of the creation loop. -/
def runBuild (s : RunState) : List BuildIter → RunState × List Request
  | [] => (s, [])
  | it :: rest =>
    let r := buildStep s it
    let rec' := runBuild r.1 rest
    (rec'.1, r.2 ++ rec'.2)

/-- Outcome of one run of `main()`: process exit code, whether the
operations phase was reached, final state and trace.  `main` has no
`sys.exit` call and no `__main__` try-wrapper, so every return path ends
the process with exit code 0. -/
structure MainOutcome where
  exitCode : ℕ
  opsRan : Bool
  final : RunState
  trace : List Request

/-- `main()` of `quick_load_test.py`: build the population; `if not
created_wallets: return` aborts before the operations phase (the process
still exits 0); otherwise run the operations loop. -/
def main (builds : List BuildIter) (iters : List Iter) : MainOutcome :=
  let b := runBuild { pop := [], st := {} } builds
  if b.1.pop.isEmpty then
    { exitCode := 0, opsRan := false, final := b.1, trace := b.2 }
  else
    let o := runOps b.1 iters
    { exitCode := 0, opsRan := true, final := o.1, trace := b.2 ++ o.2 }

end QT

/-! ## Verification-phase sampling (both scripts) -/

/-- `random.sample(pool, k)`: draw `k` elements without replacement.  The
oracle supplies the raw index drawn at each step (reduced mod the current
pool size); the chosen element is removed from the pool before the next
draw. -/
def sample (oracle : ℕ → ℕ) : ℕ → List String → List String
  | 0, _ => []
  | _ + 1, [] => []
  | k + 1, p :: ps =>
    let pool := p :: ps
    let i := oracle k % pool.length
    pool.getD i "" :: sample oracle k (pool.eraseIdx i)

/-- One verification sample: the ledger entry count observed for a wallet,
or a marker that the ledger query failed. -/
inductive VSample where
  | ok (walletId : String) (count : ℕ)
  | err (walletId : String)
  deriving DecidableEq, Repr

/-- The per-wallet verification loop (lines 332-339 / 250-260): each sampled
wallet is queried independently inside its own try/except, so one failure
never prevents the remaining queries.  `ledger w = none` models a query
failure for `w`. -/
def verifySamples (ledger : String → Option ℕ) (samples : List String) : List VSample :=
  samples.map fun w =>
    match ledger w with
    | some c => .ok w c
    | none => .err w

/-! ## Helper lemmas -/

theorem choice_mem {α : Type} {l : List α} {i : ℕ} {a : α} (h : choice l i = some a) :
    a ∈ l :=
  List.get?_mem h

theorem choice_isSome {α : Type} {l : List α} (h : l ≠ []) (i : ℕ) :
    ∃ a, choice l i = some a := by
  have hlen : 0 < l.length := List.length_pos.mpr h
  have hlt : i % l.length < l.length := Nat.mod_lt _ hlen
  exact ⟨l.get ⟨_, hlt⟩, List.get?_eq_get hlt⟩

theorem round2_ge (k : ℤ) (x : ℚ) (h : (k : ℚ) ≤ x) : (k : ℚ) ≤ round2 x := by
  unfold round2
  rw [le_div_iff₀ (by norm_num : (0:ℚ) < 100)]
  have h1 : ((100 * k : ℤ) : ℚ) ≤ ((⌊100 * x⌋ : ℤ) : ℚ) := by
    exact_mod_cast Int.le_floor.mpr (by push_cast; linarith)
  split_ifs <;> push_cast at h1 ⊢ <;> linarith

theorem round2_le_add (x : ℚ) : round2 x ≤ x + 1/200 := by
  unfold round2
  rw [div_le_iff₀ (by norm_num : (0:ℚ) < 100)]
  have h1 : ((⌊100 * x⌋ : ℤ) : ℚ) ≤ 100 * x := Int.floor_le _
  split_ifs with hf hg he <;> push_cast <;> linarith

theorem round2_eq_div (x : ℚ) : ∃ m : ℤ, round2 x = (m : ℚ) / 100 :=
  ⟨_, rfl⟩

theorem length_sample (oracle : ℕ → ℕ) :
    ∀ (k : ℕ) (pool : List String), (sample oracle k pool).length = min k pool.length
  | 0, _ => by simp [sample]
  | k + 1, [] => by simp [sample]
  | k + 1, p :: ps => by
    have hlt : oracle k % (p :: ps).length < (p :: ps).length :=
      Nat.mod_lt _ (by simp)
    have ih := length_sample oracle k ((p :: ps).eraseIdx (oracle k % (p :: ps).length))
    have hlen := List.length_eraseIdx_of_lt hlt
    simp only [sample, List.length_cons] at *
    omega

theorem sample_subset (oracle : ℕ → ℕ) :
    ∀ (k : ℕ) (pool : List String) (a : String), a ∈ sample oracle k pool → a ∈ pool
  | 0, _, a => by simp [sample]
  | k + 1, [], a => by simp [sample]
  | k + 1, p :: ps, a => by
    intro hmem
    have hlt : oracle k % (p :: ps).length < (p :: ps).length :=
      Nat.mod_lt _ (by simp)
    simp only [sample, List.mem_cons] at hmem
    rcases hmem with h | h
    · rw [h, List.getD_eq_getElem _ _ hlt]
      exact List.getElem_mem hlt
    · exact (List.eraseIdx_sublist (p :: ps) (oracle k % (p :: ps).length)).mem
        (sample_subset oracle k _ a h)

theorem getD_not_mem_eraseIdx :
    ∀ (l : List String) (i : ℕ), l.Nodup → i < l.length → l.getD i "" ∉ l.eraseIdx i
  | [], i, _, h => by simp at h
  | a :: as, 0, hnd, _ => by
    simpa using (List.nodup_cons.mp hnd).1
  | a :: as, i + 1, hnd, h => by
    have hi : i < as.length := by simpa using h
    simp only [List.eraseIdx, List.getD_cons_succ, List.mem_cons]
    rintro (heq | hmem)
    · have hin : as.getD i "" ∈ as := by
        rw [List.getD_eq_getElem _ _ hi]; exact List.getElem_mem hi
      exact (List.nodup_cons.mp hnd).1 (heq ▸ hin)
    · exact getD_not_mem_eraseIdx as i (List.nodup_cons.mp hnd).2 hi hmem

theorem LT.opStep_credit_count (pop : List LT.Wallet) (st : LT.Stats) (it : LT.Iter) :
    (LT.opStep pop st it).1.credits_success + (LT.opStep pop st it).1.credits_failed
      = st.credits_success + st.credits_failed + (if it.kind = .credit then 1 else 0) := by
  rcases it with ⟨k, r, e⟩
  cases k <;> simp only [LT.opStep] <;> (repeat' split) <;> (try simp_all) <;> omega

theorem LT.opStep_debit_count (pop : List LT.Wallet) (st : LT.Stats) (it : LT.Iter) :
    (LT.opStep pop st it).1.debits_success + (LT.opStep pop st it).1.debits_failed
      = st.debits_success + st.debits_failed + (if it.kind = .debit then 1 else 0) := by
  rcases it with ⟨k, r, e⟩
  cases k <;> simp only [LT.opStep] <;> (repeat' split) <;> (try simp_all) <;> omega

theorem LT.opStep_transfer_count (pop : List LT.Wallet) (st : LT.Stats) (it : LT.Iter) :
    (LT.opStep pop st it).1.transfers_success + (LT.opStep pop st it).1.transfers_failed
      = st.transfers_success + st.transfers_failed + (if it.kind = .transfer then 1 else 0) := by
  rcases it with ⟨k, r, e⟩
  cases k <;> simp only [LT.opStep] <;> (repeat' split) <;> (try simp_all) <;> omega

theorem LT.runOps_credit_count (iters : List LT.Iter) :
    ∀ s : LT.RunState,
      (LT.runOps s iters).1.st.credits_success + (LT.runOps s iters).1.st.credits_failed
        = s.st.credits_success + s.st.credits_failed
          + iters.countP (fun it => it.kind == .credit) := by
  induction iters with
  | nil => intro s; simp [LT.runOps]
  | cons it rest ih =>
    intro s
    simp only [LT.runOps, List.countP_cons]
    rw [ih ((LT.opStepS s it).1)]
    have h := LT.opStep_credit_count s.pop s.st it
    simp only [LT.opStepS]
    by_cases hk : it.kind = .credit <;> simp [hk] at h ⊢ <;> omega

theorem LT.runOps_debit_count (iters : List LT.Iter) :
    ∀ s : LT.RunState,
      (LT.runOps s iters).1.st.debits_success + (LT.runOps s iters).1.st.debits_failed
        = s.st.debits_success + s.st.debits_failed
          + iters.countP (fun it => it.kind == .debit) := by
  induction iters with
  | nil => intro s; simp [LT.runOps]
  | cons it rest ih =>
    intro s
    simp only [LT.runOps, List.countP_cons]
    rw [ih ((LT.opStepS s it).1)]
    have h := LT.opStep_debit_count s.pop s.st it
    simp only [LT.opStepS]
    by_cases hk : it.kind = .debit <;> simp [hk] at h ⊢ <;> omega

theorem LT.runOps_transfer_count (iters : List LT.Iter) :
    ∀ s : LT.RunState,
      (LT.runOps s iters).1.st.transfers_success + (LT.runOps s iters).1.st.transfers_failed
        = s.st.transfers_success + s.st.transfers_failed
          + iters.countP (fun it => it.kind == .transfer) := by
  induction iters with
  | nil => intro s; simp [LT.runOps]
  | cons it rest ih =>
    intro s
    simp only [LT.runOps, List.countP_cons]
    rw [ih ((LT.opStepS s it).1)]
    have h := LT.opStep_transfer_count s.pop s.st it
    simp only [LT.opStepS]
    by_cases hk : it.kind = .transfer <;> simp [hk] at h ⊢ <;> omega

theorem countP_kind_partition {α : Type} (f : α → OpKind) (l : List α) :
    l.countP (fun a => f a == .credit) + l.countP (fun a => f a == .debit)
      + l.countP (fun a => f a == .transfer) = l.length := by
  induction l with
  | nil => simp
  | cons a t ih =>
    simp only [List.countP_cons, List.length_cons]
    cases h : f a <;> simp [h] <;> omega

theorem LT.runBuild_wallet_count (builds : List LT.BuildIter) :
    ∀ s : LT.RunState,
      (LT.runBuild s builds).1.st.wallets_created + (LT.runBuild s builds).1.st.wallets_failed
        = s.st.wallets_created + s.st.wallets_failed + builds.length := by
  induction builds with
  | nil => intro s; simp [LT.runBuild]
  | cons b rest ih =>
    intro s
    simp only [LT.runBuild, List.length_cons]
    rw [ih ((LT.buildStep s b).1)]
    simp only [LT.buildStep]
    split <;> simp <;> omega

theorem LT.runOps_pop (iters : List LT.Iter) :
    ∀ s : LT.RunState, (LT.runOps s iters).1.pop = s.pop := by
  induction iters with
  | nil => intro s; simp [LT.runOps]
  | cons it rest ih =>
    intro s
    simp only [LT.runOps]
    rw [ih ((LT.opStepS s it).1)]
    simp [LT.opStepS]

theorem QT.perform_operation_some (op : String)
    (hop : op = "credit" ∨ op = "debit" ∨ op = "transfer")
    (ids : List String) (r : QT.Rng) (e : QT.Env) :
    ∃ res : QT.OpResult, (QT.perform_operation op ids r e).1 = some res ∧ res.type = op := by
  rcases hop with h | h | h <;> subst h <;>
    unfold QT.perform_operation <;> (repeat' split) <;>
    first
    | exact ⟨_, rfl, rfl⟩
    | simp_all

theorem QT.opStep_stats (s : QT.RunState) (it : QT.Iter) :
    ∃ ok : Bool, (QT.opStep s it).1.st =
      match it.kind with
      | .credit => { s.st with credit := s.st.credit.record ok }
      | .debit => { s.st with debit := s.st.debit.record ok }
      | .transfer => { s.st with transfer := s.st.transfer.record ok } := by
  rcases it with ⟨k, r, e⟩
  cases k
  case credit =>
    cases hch : choice s.pop r.pick with
    | none =>
      exact ⟨false, by simp [QT.opStep, QT.perform_operation, QT.OpKind.str, hch,
        QT.recordResult, QT.StatPair.record]⟩
    | some w =>
      cases hp : e.postOk with
      | true =>
        exact ⟨true, by simp [QT.opStep, QT.perform_operation, QT.OpKind.str, hch, hp,
          QT.recordResult, QT.StatPair.record]⟩
      | false =>
        exact ⟨false, by simp [QT.opStep, QT.perform_operation, QT.OpKind.str, hch, hp,
          QT.recordResult, QT.StatPair.record]⟩
  case debit =>
    cases hch : choice s.pop r.pick with
    | none =>
      exact ⟨false, by simp [QT.opStep, QT.perform_operation, QT.OpKind.str, hch,
        QT.recordResult, QT.StatPair.record]⟩
    | some w =>
      cases hp : e.postOk with
      | true =>
        exact ⟨true, by simp [QT.opStep, QT.perform_operation, QT.OpKind.str, hch, hp,
          QT.recordResult, QT.StatPair.record]⟩
      | false =>
        exact ⟨false, by simp [QT.opStep, QT.perform_operation, QT.OpKind.str, hch, hp,
          QT.recordResult, QT.StatPair.record]⟩
  case transfer =>
    by_cases hlen : s.pop.length < 2
    · exact ⟨false, by simp [QT.opStep, QT.perform_operation, QT.OpKind.str, hlen,
        QT.recordResult, QT.StatPair.record]⟩
    · cases hch : choice s.pop r.pick with
      | none =>
        exact ⟨false, by simp [QT.opStep, QT.perform_operation, QT.OpKind.str, hlen, hch,
          QT.recordResult, QT.StatPair.record]⟩
      | some w =>
        cases hch2 : choice (s.pop.filter fun x => x ≠ w) r.pick2 with
        | none =>
          refine ⟨false, ?_⟩
          simp only [ne_eq, decide_not] at hch2
          simp [QT.opStep, QT.perform_operation, QT.OpKind.str, hlen, hch,
            hch2, QT.recordResult, QT.StatPair.record]
        | some w2 =>
          cases hp : e.postOk with
          | true =>
            refine ⟨true, ?_⟩
            simp only [ne_eq, decide_not] at hch2
            simp [QT.opStep, QT.perform_operation, QT.OpKind.str, hlen, hch,
              hch2, hp, QT.recordResult, QT.StatPair.record]
          | false =>
            refine ⟨false, ?_⟩
            simp only [ne_eq, decide_not] at hch2
            simp [QT.opStep, QT.perform_operation, QT.OpKind.str, hlen, hch,
              hch2, hp, QT.recordResult, QT.StatPair.record]

theorem QT.q_opStep_credit_count (s : QT.RunState) (it : QT.Iter) :
    (QT.opStep s it).1.st.credit.success + (QT.opStep s it).1.st.credit.failed
      = s.st.credit.success + s.st.credit.failed + (if it.kind = .credit then 1 else 0) := by
  obtain ⟨ok, hst⟩ := QT.opStep_stats s it
  rw [hst]
  cases it.kind <;> cases ok <;> simp [QT.StatPair.record] <;> omega

theorem QT.q_opStep_debit_count (s : QT.RunState) (it : QT.Iter) :
    (QT.opStep s it).1.st.debit.success + (QT.opStep s it).1.st.debit.failed
      = s.st.debit.success + s.st.debit.failed + (if it.kind = .debit then 1 else 0) := by
  obtain ⟨ok, hst⟩ := QT.opStep_stats s it
  rw [hst]
  cases it.kind <;> cases ok <;> simp [QT.StatPair.record] <;> omega

theorem QT.q_opStep_transfer_count (s : QT.RunState) (it : QT.Iter) :
    (QT.opStep s it).1.st.transfer.success + (QT.opStep s it).1.st.transfer.failed
      = s.st.transfer.success + s.st.transfer.failed + (if it.kind = .transfer then 1 else 0) := by
  obtain ⟨ok, hst⟩ := QT.opStep_stats s it
  rw [hst]
  cases it.kind <;> cases ok <;> simp [QT.StatPair.record] <;> omega

theorem QT.q_runOps_credit_count (iters : List QT.Iter) :
    ∀ s : QT.RunState,
      (QT.runOps s iters).1.st.credit.success + (QT.runOps s iters).1.st.credit.failed
        = s.st.credit.success + s.st.credit.failed
          + iters.countP (fun it => it.kind == .credit) := by
  induction iters with
  | nil => intro s; simp [QT.runOps]
  | cons it rest ih =>
    intro s
    simp only [QT.runOps, List.countP_cons]
    rw [ih ((QT.opStep s it).1)]
    have h := QT.q_opStep_credit_count s it
    by_cases hk : it.kind = .credit <;> simp [hk] at h ⊢ <;> omega

theorem QT.q_runOps_debit_count (iters : List QT.Iter) :
    ∀ s : QT.RunState,
      (QT.runOps s iters).1.st.debit.success + (QT.runOps s iters).1.st.debit.failed
        = s.st.debit.success + s.st.debit.failed
          + iters.countP (fun it => it.kind == .debit) := by
  induction iters with
  | nil => intro s; simp [QT.runOps]
  | cons it rest ih =>
    intro s
    simp only [QT.runOps, List.countP_cons]
    rw [ih ((QT.opStep s it).1)]
    have h := QT.q_opStep_debit_count s it
    by_cases hk : it.kind = .debit <;> simp [hk] at h ⊢ <;> omega

theorem QT.q_runOps_transfer_count (iters : List QT.Iter) :
    ∀ s : QT.RunState,
      (QT.runOps s iters).1.st.transfer.success + (QT.runOps s iters).1.st.transfer.failed
        = s.st.transfer.success + s.st.transfer.failed
          + iters.countP (fun it => it.kind == .transfer) := by
  induction iters with
  | nil => intro s; simp [QT.runOps]
  | cons it rest ih =>
    intro s
    simp only [QT.runOps, List.countP_cons]
    rw [ih ((QT.opStep s it).1)]
    have h := QT.q_opStep_transfer_count s it
    by_cases hk : it.kind = .transfer <;> simp [hk] at h ⊢ <;> omega

theorem QT.q_runBuild_wallet_count (builds : List QT.BuildIter) :
    ∀ s : QT.RunState,
      (QT.runBuild s builds).1.st.wallets.success + (QT.runBuild s builds).1.st.wallets.failed
        = s.st.wallets.success + s.st.wallets.failed + builds.length := by
  induction builds with
  | nil => intro s; simp [QT.runBuild]
  | cons b rest ih =>
    intro s
    simp only [QT.runBuild, List.length_cons]
    rw [ih ((QT.buildStep s b).1)]
    simp only [QT.buildStep]
    split <;> simp [QT.StatPair.record] <;> omega

theorem QT.q_runOps_pop (iters : List QT.Iter) :
    ∀ s : QT.RunState, (QT.runOps s iters).1.pop = s.pop := by
  induction iters with
  | nil => intro s; simp [QT.runOps]
  | cons it rest ih =>
    intro s
    simp only [QT.runOps]
    rw [ih ((QT.opStep s it).1)]
    simp only [QT.opStep]
    split <;> rfl

theorem sample_nodup (oracle : ℕ → ℕ) :
    ∀ (k : ℕ) (pool : List String), pool.Nodup → (sample oracle k pool).Nodup
  | 0, _, _ => by simp [sample]
  | k + 1, [], _ => by simp [sample]
  | k + 1, p :: ps, hnd => by
    have hlt : oracle k % (p :: ps).length < (p :: ps).length :=
      Nat.mod_lt _ (by simp)
    simp only [sample, List.nodup_cons]
    refine ⟨fun hmem => ?_, sample_nodup oracle k _ ((List.eraseIdx_sublist _ _).nodup hnd)⟩
    exact getD_not_mem_eraseIdx (p :: ps) _ hnd hlt (sample_subset oracle k _ _ hmem)

/-- Sum of the six operation counters of `load_test_wallets`' stats. -/
def LT.Stats.opTotal (st : LT.Stats) : ℕ :=
  st.credits_success + st.credits_failed + st.debits_success + st.debits_failed
    + st.transfers_success + st.transfers_failed

/-- Sum of the six operation counters of `quick_load_test`'s stats. -/
def QT.Stats.opTotal (st : QT.Stats) : ℕ :=
  st.credit.success + st.credit.failed + st.debit.success + st.debit.failed
    + st.transfer.success + st.transfer.failed

/-! ## Claim theorems -/

/-- C1: in both scripts, after each phase every kind's `success + failed`
counters equal the number of attempts of that kind (wallets phase: one
outcome per creation attempt; operations phase: one outcome per iteration,
per drawn kind), and the three operation kinds' counters sum to the number
of operations performed. -/
theorem C1_counters_partition_attempts
    (builds : List LT.BuildIter) (iters : List LT.Iter) (s : LT.RunState)
    (pop : List LT.Wallet)
    (qbuilds : List QT.BuildIter) (qiters : List QT.Iter) (qs : QT.RunState)
    (qpop : List String) :
    ((LT.runBuild s builds).1.st.wallets_created + (LT.runBuild s builds).1.st.wallets_failed
      = s.st.wallets_created + s.st.wallets_failed + builds.length)
    ∧ ((LT.runOps s iters).1.st.credits_success + (LT.runOps s iters).1.st.credits_failed
      = s.st.credits_success + s.st.credits_failed
        + iters.countP (fun it => it.kind == .credit))
    ∧ ((LT.runOps s iters).1.st.debits_success + (LT.runOps s iters).1.st.debits_failed
      = s.st.debits_success + s.st.debits_failed
        + iters.countP (fun it => it.kind == .debit))
    ∧ ((LT.runOps s iters).1.st.transfers_success + (LT.runOps s iters).1.st.transfers_failed
      = s.st.transfers_success + s.st.transfers_failed
        + iters.countP (fun it => it.kind == .transfer))
    ∧ ((LT.runOps ⟨pop, {}⟩ iters).1.st.opTotal = iters.length)
    ∧ ((QT.runBuild qs qbuilds).1.st.wallets.success + (QT.runBuild qs qbuilds).1.st.wallets.failed
      = qs.st.wallets.success + qs.st.wallets.failed + qbuilds.length)
    ∧ ((QT.runOps qs qiters).1.st.credit.success + (QT.runOps qs qiters).1.st.credit.failed
      = qs.st.credit.success + qs.st.credit.failed
        + qiters.countP (fun it => it.kind == .credit))
    ∧ ((QT.runOps qs qiters).1.st.debit.success + (QT.runOps qs qiters).1.st.debit.failed
      = qs.st.debit.success + qs.st.debit.failed
        + qiters.countP (fun it => it.kind == .debit))
    ∧ ((QT.runOps qs qiters).1.st.transfer.success + (QT.runOps qs qiters).1.st.transfer.failed
      = qs.st.transfer.success + qs.st.transfer.failed
        + qiters.countP (fun it => it.kind == .transfer))
    ∧ ((QT.runOps ⟨qpop, {}⟩ qiters).1.st.opTotal = qiters.length) := by
  refine ⟨LT.runBuild_wallet_count builds s, LT.runOps_credit_count iters s,
    LT.runOps_debit_count iters s, LT.runOps_transfer_count iters s, ?_,
    QT.q_runBuild_wallet_count qbuilds qs, QT.q_runOps_credit_count qiters qs,
    QT.q_runOps_debit_count qiters qs, QT.q_runOps_transfer_count qiters qs, ?_⟩
  · have hc := LT.runOps_credit_count iters ⟨pop, {}⟩
    have hd := LT.runOps_debit_count iters ⟨pop, {}⟩
    have ht := LT.runOps_transfer_count iters ⟨pop, {}⟩
    have hp := countP_kind_partition LT.Iter.kind iters
    simp only [LT.Stats.opTotal]
    simp at hc hd ht
    omega
  · have hc := QT.q_runOps_credit_count qiters ⟨qpop, {}⟩
    have hd := QT.q_runOps_debit_count qiters ⟨qpop, {}⟩
    have ht := QT.q_runOps_transfer_count qiters ⟨qpop, {}⟩
    have hp := countP_kind_partition QT.Iter.kind qiters
    simp only [QT.Stats.opTotal]
    simp at hc hd ht
    omega

/-- C2 counterexample: in `quick_load_test.py`, when zero wallets were
created, `main` returns early (the operations phase is skipped) but the
process exits normally with code 0, not a non-zero code. -/
theorem C2_counterexample :
    (QT.main [⟨"w1", "u1", fun lo _ => lo, false, "w1"⟩] []).opsRan = false ∧
    (QT.main [⟨"w1", "u1", fun lo _ => lo, false, "w1"⟩] []).exitCode = 0 := by
  exact ⟨rfl, rfl⟩

/-- C2 (amended): with zero wallets created, both scripts abort before the
operations phase; `load_test_wallets.py` exits with code 1, while
`quick_load_test.py`'s `main` returns normally, so its process exit code
is 0. -/
theorem C2_empty_population_aborts
    (builds : List LT.BuildIter) (iters : List LT.Iter)
    (qbuilds : List QT.BuildIter) (qiters : List QT.Iter)
    (h : (LT.runBuild ⟨[], {}⟩ builds).1.st.wallets_created = 0)
    (hq : (QT.runBuild ⟨[], {}⟩ qbuilds).1.pop = []) :
    ((LT.main builds iters).exitCode = 1 ∧ (LT.main builds iters).opsRan = false) ∧
    ((QT.main qbuilds qiters).exitCode = 0 ∧ (QT.main qbuilds qiters).opsRan = false) := by
  constructor
  · unfold LT.main
    simp [h]
  · unfold QT.main
    simp [hq]

/-- Witness for C2's amended theorem at the empty build list. -/
theorem C2_empty_population_aborts_witness :
    ((LT.runBuild ⟨[], {}⟩ ([] : List LT.BuildIter)).1.st.wallets_created = 0) ∧
    ((QT.runBuild ⟨[], {}⟩ ([] : List QT.BuildIter)).1.pop = []) ∧
    (((LT.main [] []).exitCode = 1 ∧ (LT.main [] []).opsRan = false) ∧
     ((QT.main [] []).exitCode = 0 ∧ (QT.main [] []).opsRan = false)) :=
  ⟨rfl, rfl, C2_empty_population_aborts [] [] [] [] rfl rfl⟩

/-- C8 counterexample: user interruption and an unexpected fault both exit
with the same code 1, so the exit codes are not distinct. -/
theorem C8_counterexample :
    (LT.topLevelExit .interrupted).2 = 1 ∧
    (LT.topLevelExit (.fault "boom")).2 = 1 ∧
    (LT.topLevelExit .interrupted).2 = (LT.topLevelExit (.fault "boom")).2 :=
  ⟨rfl, rfl, rfl⟩

/-- C8 (amended): the `__main__` handler prints a distinct message for a
user interruption versus an unexpected fault, but uses the same exit code
1 for both (distinct only from the normal completion code 0). -/
theorem C8_distinct_messages_same_code (m : String) :
    (LT.topLevelExit .interrupted).1 ≠ (LT.topLevelExit (.fault m)).1 ∧
    (LT.topLevelExit .interrupted).2 = 1 ∧
    (LT.topLevelExit (.fault m)).2 = 1 ∧
    (LT.topLevelExit .normal).2 = 0 := by
  refine ⟨?_, rfl, rfl, rfl⟩
  intro h
  simp only [LT.topLevelExit] at h
  have h3 : ("\n\n⚠️  Test interrupted by user").data.take 3
      = ("\n\n❌ Unexpected error: " ++ m).data.take 3 := by rw [h]
  have hA : ("\n\n❌ Unexpected error: " ++ m).data
      = ("\n\n❌ Unexpected error: ").data ++ m.data := rfl
  rw [hA] at h3
  rw [List.take_append_of_le_length (by decide)] at h3
  exact absurd h3 (by decide)

/-- C9: in both scripts the population container is written only by the
build phase: the operations loop leaves it unchanged from any state, and a
whole `main` run ends with exactly the population the build phase
produced. -/
theorem C9_population_readonly
    (s : LT.RunState) (iters : List LT.Iter)
    (qs : QT.RunState) (qiters : List QT.Iter)
    (builds : List LT.BuildIter) (qbuilds : List QT.BuildIter) :
    (LT.runOps s iters).1.pop = s.pop ∧
    (QT.runOps qs qiters).1.pop = qs.pop ∧
    (LT.main builds iters).final.pop = (LT.runBuild ⟨[], {}⟩ builds).1.pop ∧
    (QT.main qbuilds qiters).final.pop = (QT.runBuild ⟨[], {}⟩ qbuilds).1.pop := by
  refine ⟨LT.runOps_pop iters s, QT.q_runOps_pop qiters qs, ?_, ?_⟩
  · simp only [LT.main]
    split <;> simp [LT.runOps_pop]
  · simp only [QT.main]
    split <;> simp [QT.q_runOps_pop]

/-- C10: for an operation kind among credit/debit/transfer and a non-empty
wallet list, `perform_operation` always returns a result record (never
`None`) whose `type` equals the requested kind, so the caller's
`stats[result["type"]]` update is total and bumps exactly one counter. -/
theorem C10_perform_operation_total (op : String) (ids : List String)
    (r : QT.Rng) (e : QT.Env) (st : QT.Stats)
    (hop : op = "credit" ∨ op = "debit" ∨ op = "transfer") (hids : ids ≠ []) :
    ∃ res : QT.OpResult, (QT.perform_operation op ids r e).1 = some res ∧ res.type = op ∧
      QT.Stats.opTotal (QT.recordResult st res) = QT.Stats.opTotal st + 1 := by
  obtain ⟨res, hsome, htype⟩ := QT.perform_operation_some op hop ids r e
  refine ⟨res, hsome, htype, ?_⟩
  rcases hop with h | h | h <;> subst h <;>
    cases hres : res.success <;>
      simp [QT.recordResult, htype, hres, QT.Stats.opTotal, QT.StatPair.record] <;> omega

/-- Witness for C10 at a concrete credit call on a singleton population. -/
theorem C10_perform_operation_total_witness :
    ("credit" = "credit" ∨ "credit" = "debit" ∨ "credit" = "transfer") ∧
    (["a"] : List String) ≠ [] ∧
    (∃ res : QT.OpResult,
      (QT.perform_operation "credit" ["a"] ⟨0, 0, fun lo _ => lo⟩ ⟨true⟩).1 = some res ∧
      res.type = "credit" ∧
      QT.Stats.opTotal (QT.recordResult {} res) = QT.Stats.opTotal {} + 1) :=
  ⟨Or.inl rfl, by decide,
   C10_perform_operation_total "credit" ["a"] ⟨0, 0, fun lo _ => lo⟩ ⟨true⟩ {}
     (Or.inl rfl) (by decide)⟩

/-- C6: the verifier samples exactly `min 5 |population|` wallets, without
replacement (the sample is duplicate-free and drawn from the population),
and each sampled wallet's ledger query is reported individually: a failing
wallet yields its own error record while every other sampled wallet still
yields its count record. -/
theorem C6_verifier_sampling (pool : List String) (oracle : ℕ → ℕ)
    (ledger : String → Option ℕ) (hnd : pool.Nodup) :
    (sample oracle (min 5 pool.length) pool).length = min 5 pool.length ∧
    (sample oracle (min 5 pool.length) pool).Nodup ∧
    (∀ w ∈ sample oracle (min 5 pool.length) pool, w ∈ pool) ∧
    (verifySamples ledger (sample oracle (min 5 pool.length) pool)).length
      = min 5 pool.length ∧
    (∀ w ∈ sample oracle (min 5 pool.length) pool, ledger w = none →
      VSample.err w ∈ verifySamples ledger (sample oracle (min 5 pool.length) pool)) ∧
    (∀ w ∈ sample oracle (min 5 pool.length) pool, ∀ c, ledger w = some c →
      VSample.ok w c ∈ verifySamples ledger (sample oracle (min 5 pool.length) pool)) := by
  have hlen : (sample oracle (min 5 pool.length) pool).length = min 5 pool.length := by
    rw [length_sample]; omega
  refine ⟨hlen, sample_nodup oracle _ pool hnd,
    fun w hw => sample_subset oracle _ pool w hw, ?_, ?_, ?_⟩
  · simp [verifySamples, hlen]
  · intro w hw hfail
    simp only [verifySamples, List.mem_map]
    exact ⟨w, hw, by rw [hfail]⟩
  · intro w hw c hc
    simp only [verifySamples, List.mem_map]
    exact ⟨w, hw, by rw [hc]⟩

/-- Witness for C6 on a three-wallet population with one failing ledger
query. -/
theorem C6_verifier_sampling_witness :
    (["a", "b", "c"] : List String).Nodup ∧
    (sample (fun _ => 0) (min 5 (["a", "b", "c"] : List String).length) ["a", "b", "c"]).length
      = min 5 (["a", "b", "c"] : List String).length :=
  ⟨by decide,
   (C6_verifier_sampling ["a", "b", "c"] (fun _ => 0)
     (fun w => if w = "a" then none else some 2) (by decide)).1⟩

theorem LT.opStep_postTransfer_ne (pop : List LT.Wallet) (st : LT.Stats) (it : LT.Iter)
    (f t : String) (a : ℚ) (hmem : Request.postTransfer f t a ∈ (LT.opStep pop st it).2) :
    t ≠ f := by
  rcases it with ⟨k, r, e⟩
  cases k <;> simp only [LT.opStep] at hmem <;> (repeat' split at hmem) <;> (try simp_all) <;>
    (rename_i x1 w1 x2 w2 hlen heq1 heq2 hget hbal hpost
     have hmemf := choice_mem heq2
     rw [List.mem_filter] at hmemf
     simpa using hmemf.2)

theorem QT.perform_operation_postTransfer_ne (op : String) (ids : List String)
    (r : QT.Rng) (e : QT.Env) (f t : String) (a : ℚ)
    (hmem : Request.postTransfer f t a ∈ (QT.perform_operation op ids r e).2) :
    t ≠ f := by
  unfold QT.perform_operation at hmem
  (repeat' split at hmem) <;> (try simp_all) <;>
    (rename_i heq2 hpost
     have hmemf := choice_mem heq2
     rw [List.mem_filter] at hmemf
     simpa using hmemf.2)

theorem LT.opStep_transfer_abandon (pop : List LT.Wallet) (st : LT.Stats) (it : LT.Iter)
    (hk : it.kind = .transfer) (hlen : pop.length < 2) :
    (LT.opStep pop st it).2 = [] ∧
    (LT.opStep pop st it).1.transfers_failed = st.transfers_failed + 1 := by
  constructor <;> simp [LT.opStep, hk, hlen]

theorem QT.q_opStep_transfer_abandon (s : QT.RunState) (it : QT.Iter)
    (hk : it.kind = .transfer) (hlen : s.pop.length < 2) :
    (QT.opStep s it).2 = [] ∧
    (QT.opStep s it).1.st.transfer.failed = s.st.transfer.failed + 1 := by
  constructor <;>
    simp [QT.opStep, hk, QT.OpKind.str, QT.perform_operation, hlen,
      QT.recordResult, QT.StatPair.record]

/-- C5: in both scripts, every transfer request actually issued names a
destination wallet different from the source wallet, and when the
population has fewer than two wallets the transfer is abandoned: no
request is issued and the transfer-failed counter is incremented. -/
theorem C5_transfer_distinct_and_guard
    (pop : List LT.Wallet) (st : LT.Stats) (it : LT.Iter)
    (s : QT.RunState) (qit : QT.Iter) (op : String) (ids : List String)
    (r : QT.Rng) (e : QT.Env) :
    (∀ f t a, Request.postTransfer f t a ∈ (LT.opStep pop st it).2 → t ≠ f) ∧
    (∀ f t a, Request.postTransfer f t a ∈ (QT.perform_operation op ids r e).2 → t ≠ f) ∧
    (it.kind = .transfer → pop.length < 2 →
      (LT.opStep pop st it).2 = [] ∧
      (LT.opStep pop st it).1.transfers_failed = st.transfers_failed + 1) ∧
    (qit.kind = .transfer → s.pop.length < 2 →
      (QT.opStep s qit).2 = [] ∧
      (QT.opStep s qit).1.st.transfer.failed = s.st.transfer.failed + 1) :=
  ⟨fun f t a h => LT.opStep_postTransfer_ne pop st it f t a h,
   fun f t a h => QT.perform_operation_postTransfer_ne op ids r e f t a h,
   fun hk hl => LT.opStep_transfer_abandon pop st it hk hl,
   fun hk hl => QT.q_opStep_transfer_abandon s qit hk hl⟩

/-- Witness for C5 on a too-small population: the transfer is abandoned
with no request and a failure tally in both scripts. -/
theorem C5_transfer_distinct_and_guard_witness :
    ((LT.opStep [] {} ⟨.transfer, ⟨0, 0, fun lo _ => lo⟩, ⟨true, true, fun _ => 0⟩⟩).2 = [] ∧
     (LT.opStep [] {} ⟨.transfer, ⟨0, 0, fun lo _ => lo⟩,
       ⟨true, true, fun _ => 0⟩⟩).1.transfers_failed
       = ({} : LT.Stats).transfers_failed + 1) ∧
    ((QT.opStep ⟨[], {}⟩ ⟨.transfer, ⟨0, 0, fun lo _ => lo⟩, ⟨true⟩⟩).2 = [] ∧
     (QT.opStep ⟨[], {}⟩ ⟨.transfer, ⟨0, 0, fun lo _ => lo⟩, ⟨true⟩⟩).1.st.transfer.failed
       = ({} : QT.Stats).transfer.failed + 1) :=
  ⟨(C5_transfer_distinct_and_guard [] {} ⟨.transfer, ⟨0, 0, fun lo _ => lo⟩,
      ⟨true, true, fun _ => 0⟩⟩ ⟨[], {}⟩ ⟨.transfer, ⟨0, 0, fun lo _ => lo⟩, ⟨true⟩⟩
      "credit" [] ⟨0, 0, fun lo _ => lo⟩ ⟨true⟩).2.2.1 rfl (by decide),
   (C5_transfer_distinct_and_guard [] {} ⟨.transfer, ⟨0, 0, fun lo _ => lo⟩,
      ⟨true, true, fun _ => 0⟩⟩ ⟨[], {}⟩ ⟨.transfer, ⟨0, 0, fun lo _ => lo⟩, ⟨true⟩⟩
      "credit" [] ⟨0, 0, fun lo _ => lo⟩ ⟨true⟩).2.2.2 rfl (by decide)⟩

theorem LT.opStep_debit_skip (pop : List LT.Wallet) (st : LT.Stats) (it : LT.Iter)
    (w : LT.Wallet) (hk : it.kind = .debit) (hch : choice pop it.rng.pick = some w)
    (hget : it.env.getOk = true)
    (hlow : min (it.env.balance w.id * (1/2)) 500 ≤ 10) :
    (LT.opStep pop st it).2 = [Request.getWallet w.id] ∧
    (LT.opStep pop st it).1.debits_failed = st.debits_failed + 1 := by
  have hnot : ¬ (10 < min (it.env.balance w.id * (1/2)) 500) := not_lt.mpr hlow
  constructor <;>
    (simp only [LT.opStep, hk, hch]
     rw [if_pos hget, if_neg hnot])

theorem LT.opStep_transfer_skip (pop : List LT.Wallet) (st : LT.Stats) (it : LT.Iter)
    (w1 w2 : LT.Wallet) (hk : it.kind = .transfer) (hlen : ¬ pop.length < 2)
    (hch1 : choice pop it.rng.pick = some w1)
    (hch2 : choice (pop.filter fun x => x.id ≠ w1.id) it.rng.pick2 = some w2)
    (hget : it.env.getOk = true)
    (hlow : min (it.env.balance w1.id * (3/10)) 300 ≤ 10) :
    (LT.opStep pop st it).2 = [Request.getWallet w1.id] ∧
    (LT.opStep pop st it).1.transfers_failed = st.transfers_failed + 1 := by
  have hnot : ¬ (10 < min (it.env.balance w1.id * (3/10)) 300) := not_lt.mpr hlow
  constructor <;>
    (simp only [LT.opStep, hk]
     rw [if_neg hlen]
     simp only [hch1, hch2]
     rw [if_pos hget, if_neg hnot])

/-- C4 counterexample: a debit whose computed ceiling (5) is at or below
the minimum threshold 10 is skipped and tallied as failed, but an HTTP
request — the balance-read GET — was still issued for it, so "no HTTP
request is issued" is false as stated. -/
theorem C4_counterexample :
    (LT.opStep [⟨"a", "o", 100⟩] {}
      ⟨.debit, ⟨0, 0, fun lo _ => lo⟩, ⟨true, true, fun _ => 10⟩⟩).2
      = [Request.getWallet "a"] ∧
    (LT.opStep [⟨"a", "o", 100⟩] {}
      ⟨.debit, ⟨0, 0, fun lo _ => lo⟩, ⟨true, true, fun _ => 10⟩⟩).2 ≠ [] ∧
    (LT.opStep [⟨"a", "o", 100⟩] {}
      ⟨.debit, ⟨0, 0, fun lo _ => lo⟩, ⟨true, true, fun _ => 10⟩⟩).1.debits_failed = 1 := by
  have h := LT.opStep_debit_skip [⟨"a", "o", 100⟩] {}
    ⟨.debit, ⟨0, 0, fun lo _ => lo⟩, ⟨true, true, fun _ => 10⟩⟩ ⟨"a", "o", 100⟩
    rfl rfl rfl (by rw [min_def]; norm_num)
  exact ⟨h.1, by rw [h.1]; simp, h.2⟩

/-- C4 (amended): whenever the computed debit/transfer ceiling is at or
below the minimum threshold 10, the operation is skipped — no debit or
transfer (mutating) request is issued, only the preceding balance-read GET
— and it is tallied as a failed outcome. -/
theorem C4_skip_below_threshold
    (pop : List LT.Wallet) (st : LT.Stats) (it : LT.Iter) (w w1 w2 : LT.Wallet) :
    (it.kind = .debit → choice pop it.rng.pick = some w → it.env.getOk = true →
      min (it.env.balance w.id * (1/2)) 500 ≤ 10 →
      (LT.opStep pop st it).2 = [Request.getWallet w.id] ∧
      (LT.opStep pop st it).1.debits_failed = st.debits_failed + 1) ∧
    (it.kind = .transfer → ¬ pop.length < 2 →
      choice pop it.rng.pick = some w1 →
      choice (pop.filter fun x => x.id ≠ w1.id) it.rng.pick2 = some w2 →
      it.env.getOk = true →
      min (it.env.balance w1.id * (3/10)) 300 ≤ 10 →
      (LT.opStep pop st it).2 = [Request.getWallet w1.id] ∧
      (LT.opStep pop st it).1.transfers_failed = st.transfers_failed + 1) :=
  ⟨fun hk hch hget hlow => LT.opStep_debit_skip pop st it w hk hch hget hlow,
   fun hk hlen hch1 hch2 hget hlow =>
     LT.opStep_transfer_skip pop st it w1 w2 hk hlen hch1 hch2 hget hlow⟩

/-- Witness for C4's amended theorem: debit skip on balance 10 (ceiling 5)
and transfer skip on balance 10 (ceiling 3). -/
theorem C4_skip_below_threshold_witness :
    ((LT.opStep [⟨"a", "o", 100⟩, ⟨"b", "o", 100⟩] {}
       ⟨.debit, ⟨0, 0, fun lo _ => lo⟩, ⟨true, true, fun _ => 10⟩⟩).2
       = [Request.getWallet "a"] ∧
     (LT.opStep [⟨"a", "o", 100⟩, ⟨"b", "o", 100⟩] {}
       ⟨.debit, ⟨0, 0, fun lo _ => lo⟩, ⟨true, true, fun _ => 10⟩⟩).1.debits_failed
       = ({} : LT.Stats).debits_failed + 1) ∧
    ((LT.opStep [⟨"a", "o", 100⟩, ⟨"b", "o", 100⟩] {}
       ⟨.transfer, ⟨0, 0, fun lo _ => lo⟩, ⟨true, true, fun _ => 10⟩⟩).2
       = [Request.getWallet "a"] ∧
     (LT.opStep [⟨"a", "o", 100⟩, ⟨"b", "o", 100⟩] {}
       ⟨.transfer, ⟨0, 0, fun lo _ => lo⟩, ⟨true, true, fun _ => 10⟩⟩).1.transfers_failed
       = ({} : LT.Stats).transfers_failed + 1) :=
  ⟨(C4_skip_below_threshold [⟨"a", "o", 100⟩, ⟨"b", "o", 100⟩] {}
      ⟨.debit, ⟨0, 0, fun lo _ => lo⟩, ⟨true, true, fun _ => 10⟩⟩
      ⟨"a", "o", 100⟩ ⟨"a", "o", 100⟩ ⟨"b", "o", 100⟩).1
      rfl rfl rfl (by rw [min_def]; norm_num),
   (C4_skip_below_threshold [⟨"a", "o", 100⟩, ⟨"b", "o", 100⟩] {}
      ⟨.transfer, ⟨0, 0, fun lo _ => lo⟩, ⟨true, true, fun _ => 10⟩⟩
      ⟨"a", "o", 100⟩ ⟨"a", "o", 100⟩ ⟨"b", "o", 100⟩).2
      rfl (by decide) rfl rfl rfl (by rw [min_def]; norm_num)⟩

theorem LT.opStep_debit_issue (pop : List LT.Wallet) (st : LT.Stats) (it : LT.Iter)
    (w : LT.Wallet) (hk : it.kind = .debit) (hch : choice pop it.rng.pick = some w)
    (hget : it.env.getOk = true) (hok : LT.Rng.Ok it.rng)
    (hce : 10 < min (it.env.balance w.id * (1/2)) 500) :
    (LT.opStep pop st it).2
      = [Request.getWallet w.id,
         Request.postDebit w.id
           (round2 (it.rng.uniform 10 (min (it.env.balance w.id * (1/2)) 500)))] ∧
    10 ≤ round2 (it.rng.uniform 10 (min (it.env.balance w.id * (1/2)) 500)) ∧
    round2 (it.rng.uniform 10 (min (it.env.balance w.id * (1/2)) 500))
      ≤ min (it.env.balance w.id * (1/2)) 500 + 1/200 := by
  obtain ⟨hlo, hhi⟩ := hok 10 (min (it.env.balance w.id * (1/2)) 500) (le_of_lt hce)
  refine ⟨?_, ?_, ?_⟩
  · simp only [LT.opStep, hk, hch]
    rw [if_pos hget, if_pos hce]
    cases it.env.postOk <;> simp
  · have h10 : ((10 : ℤ) : ℚ)
        ≤ it.rng.uniform 10 (min (it.env.balance w.id * (1/2)) 500) := by
      exact_mod_cast hlo
    have h := round2_ge 10 _ h10
    exact_mod_cast h
  · have h := round2_le_add (it.rng.uniform 10 (min (it.env.balance w.id * (1/2)) 500))
    linarith

theorem LT.opStep_transfer_issue (pop : List LT.Wallet) (st : LT.Stats) (it : LT.Iter)
    (w1 w2 : LT.Wallet) (hk : it.kind = .transfer) (hlen : ¬ pop.length < 2)
    (hch1 : choice pop it.rng.pick = some w1)
    (hch2 : choice (pop.filter fun x => x.id ≠ w1.id) it.rng.pick2 = some w2)
    (hget : it.env.getOk = true) (hok : LT.Rng.Ok it.rng)
    (hce : 10 < min (it.env.balance w1.id * (3/10)) 300) :
    (LT.opStep pop st it).2
      = [Request.getWallet w1.id,
         Request.postTransfer w1.id w2.id
           (round2 (it.rng.uniform 10 (min (it.env.balance w1.id * (3/10)) 300)))] ∧
    10 ≤ round2 (it.rng.uniform 10 (min (it.env.balance w1.id * (3/10)) 300)) ∧
    round2 (it.rng.uniform 10 (min (it.env.balance w1.id * (3/10)) 300))
      ≤ min (it.env.balance w1.id * (3/10)) 300 + 1/200 := by
  obtain ⟨hlo, hhi⟩ := hok 10 (min (it.env.balance w1.id * (3/10)) 300) (le_of_lt hce)
  refine ⟨?_, ?_, ?_⟩
  · simp only [LT.opStep, hk]
    rw [if_neg hlen]
    simp only [hch1, hch2]
    rw [if_pos hget, if_pos hce]
    cases it.env.postOk <;> simp
  · have h10 : ((10 : ℤ) : ℚ)
        ≤ it.rng.uniform 10 (min (it.env.balance w1.id * (3/10)) 300) := by
      exact_mod_cast hlo
    have h := round2_ge 10 _ h10
    exact_mod_cast h
  · have h := round2_le_add (it.rng.uniform 10 (min (it.env.balance w1.id * (3/10)) 300))
    linarith

theorem QT.perform_operation_no_getWallet (op : String) (ids : List String)
    (r : QT.Rng) (e : QT.Env) (wid : String) :
    Request.getWallet wid ∉ (QT.perform_operation op ids r e).2 := by
  intro hmem
  unfold QT.perform_operation at hmem
  (repeat' split at hmem) <;> simp_all

theorem QT.perform_operation_debit_amount (ids : List String) (r : QT.Rng) (e : QT.Env)
    (f : String) (a : ℚ)
    (hmem : Request.postDebit f a ∈ (QT.perform_operation "debit" ids r e).2) :
    a = ((r.randint 10 200 : ℕ) : ℚ) := by
  unfold QT.perform_operation at hmem
  (repeat' split at hmem) <;> simp_all

theorem QT.perform_operation_transfer_amount (ids : List String) (r : QT.Rng) (e : QT.Env)
    (f t : String) (a : ℚ)
    (hmem : Request.postTransfer f t a ∈ (QT.perform_operation "transfer" ids r e).2) :
    a = ((r.randint 10 300 : ℕ) : ℚ) := by
  unfold QT.perform_operation at hmem
  (repeat' split at hmem) <;> simp_all

/-- C3 counterexample: `quick_load_test`'s debit branch issues the debit
request with a fixed-range amount and performs no get-wallet balance read
at all, contradicting "the policy first reads the target wallet's current
balance via a get-wallet round trip". -/
theorem C3_counterexample :
    (QT.perform_operation "debit" ["a"] ⟨0, 0, fun _ hi => hi⟩ ⟨true⟩).2
      = [Request.postDebit "a" ((200 : ℕ) : ℚ)] ∧
    ∀ wid, Request.getWallet wid
      ∉ (QT.perform_operation "debit" ["a"] ⟨0, 0, fun _ hi => hi⟩ ⟨true⟩).2 := by
  constructor
  · rfl
  · intro wid
    exact QT.perform_operation_no_getWallet "debit" ["a"] ⟨0, 0, fun _ hi => hi⟩ ⟨true⟩ wid

/-- C3 (amended): in `load_test_wallets.py` every issued debit is preceded
by a get-wallet read of the target's balance and its amount is the
two-decimal rounding of a uniform draw from `[10, min(balance/2, 500)]`,
hence lies in `[10, min(balance/2, 500) + 1/200]`; transfers likewise with
`min(balance * 3/10, 300)`.  In `quick_load_test.py` no balance read is
performed: debit and transfer amounts are integers from the fixed ranges
`[10, 200]` and `[10, 300]`. -/
theorem C3_balance_bounded_amounts
    (pop : List LT.Wallet) (st : LT.Stats) (it : LT.Iter) (w w1 w2 : LT.Wallet)
    (ids : List String) (r : QT.Rng) (e : QT.Env) (op : String) :
    (it.kind = .debit → choice pop it.rng.pick = some w → it.env.getOk = true →
      LT.Rng.Ok it.rng → 10 < min (it.env.balance w.id * (1/2)) 500 →
      (LT.opStep pop st it).2
        = [Request.getWallet w.id,
           Request.postDebit w.id
             (round2 (it.rng.uniform 10 (min (it.env.balance w.id * (1/2)) 500)))] ∧
      10 ≤ round2 (it.rng.uniform 10 (min (it.env.balance w.id * (1/2)) 500)) ∧
      round2 (it.rng.uniform 10 (min (it.env.balance w.id * (1/2)) 500))
        ≤ min (it.env.balance w.id * (1/2)) 500 + 1/200) ∧
    (it.kind = .transfer → ¬ pop.length < 2 →
      choice pop it.rng.pick = some w1 →
      choice (pop.filter fun x => x.id ≠ w1.id) it.rng.pick2 = some w2 →
      it.env.getOk = true → LT.Rng.Ok it.rng →
      10 < min (it.env.balance w1.id * (3/10)) 300 →
      (LT.opStep pop st it).2
        = [Request.getWallet w1.id,
           Request.postTransfer w1.id w2.id
             (round2 (it.rng.uniform 10 (min (it.env.balance w1.id * (3/10)) 300)))] ∧
      10 ≤ round2 (it.rng.uniform 10 (min (it.env.balance w1.id * (3/10)) 300)) ∧
      round2 (it.rng.uniform 10 (min (it.env.balance w1.id * (3/10)) 300))
        ≤ min (it.env.balance w1.id * (3/10)) 300 + 1/200) ∧
    (∀ wid, Request.getWallet wid ∉ (QT.perform_operation op ids r e).2) ∧
    (∀ f a, Request.postDebit f a ∈ (QT.perform_operation "debit" ids r e).2 →
      QT.Rng.Ok r → a = ((r.randint 10 200 : ℕ) : ℚ) ∧ (10 : ℚ) ≤ a ∧ a ≤ 200) ∧
    (∀ f t a, Request.postTransfer f t a ∈ (QT.perform_operation "transfer" ids r e).2 →
      QT.Rng.Ok r → a = ((r.randint 10 300 : ℕ) : ℚ) ∧ (10 : ℚ) ≤ a ∧ a ≤ 300) := by
  refine ⟨fun hk hch hget hok hce =>
      LT.opStep_debit_issue pop st it w hk hch hget hok hce,
    fun hk hlen hch1 hch2 hget hok hce =>
      LT.opStep_transfer_issue pop st it w1 w2 hk hlen hch1 hch2 hget hok hce,
    fun wid => QT.perform_operation_no_getWallet op ids r e wid, ?_, ?_⟩
  · intro f a hmem hok
    have ha := QT.perform_operation_debit_amount ids r e f a hmem
    obtain ⟨h1, h2⟩ := hok 10 200 (by omega)
    refine ⟨ha, ?_, ?_⟩ <;> rw [ha] <;> exact_mod_cast (by omega : _)
  · intro f t a hmem hok
    have ha := QT.perform_operation_transfer_amount ids r e f t a hmem
    obtain ⟨h1, h2⟩ := hok 10 300 (by omega)
    refine ⟨ha, ?_, ?_⟩ <;> rw [ha] <;> exact_mod_cast (by omega : _)

/-- Witness for C3: a debit in `load_test_wallets` on balance 1000 reads
the balance then debits an amount in bounds, while `quick_load_test`'s
debit issues no balance read. -/
theorem C3_balance_bounded_amounts_witness :
    ((10 : ℚ) < min ((1000 : ℚ) * (1/2)) 500) ∧
    ((LT.opStep [⟨"a", "o", 1000⟩] {}
        ⟨.debit, ⟨0, 0, fun lo _ => lo⟩, ⟨true, true, fun _ => 1000⟩⟩).2
      = [Request.getWallet "a", Request.postDebit "a" (round2 10)] ∧
     10 ≤ round2 10 ∧
     round2 10 ≤ min ((1000 : ℚ) * (1/2)) 500 + 1/200) ∧
    (Request.getWallet "a"
      ∉ (QT.perform_operation "debit" ["a"] ⟨0, 0, fun _ hi => hi⟩ ⟨true⟩).2) ∧
    (((200 : ℕ) : ℚ) = ((200 : ℕ) : ℚ) ∧ (10 : ℚ) ≤ ((200 : ℕ) : ℚ) ∧
      ((200 : ℕ) : ℚ) ≤ 200) := by
  have hce : (10 : ℚ) < min ((1000 : ℚ) * (1/2)) 500 := by rw [min_def]; norm_num
  have h := C3_balance_bounded_amounts [⟨"a", "o", 1000⟩] {}
    ⟨.debit, ⟨0, 0, fun lo _ => lo⟩, ⟨true, true, fun _ => 1000⟩⟩
    ⟨"a", "o", 1000⟩ ⟨"a", "o", 1000⟩ ⟨"a", "o", 1000⟩
    ["a"] ⟨0, 0, fun _ hi => hi⟩ ⟨true⟩ "debit"
  refine ⟨hce, h.1 rfl rfl rfl (fun lo hi hle => ⟨le_rfl, hle⟩) hce, h.2.2.1 "a", ?_⟩
  exact h.2.2.2.1 "a" ((200 : ℕ) : ℚ) (List.mem_cons_self _ _)
    (fun lo hi hle => ⟨hle, le_rfl⟩)

/-- The monetary fields carried by a request. -/
def Request.amounts : Request → List ℚ
  | .postCreateWallet _ _ b => [b]
  | .postCredit _ a => [a]
  | .postDebit _ a => [a]
  | .postTransfer _ _ a => [a]
  | .getWallet _ => []
  | .getLedger _ => []

/-- Every monetary amount in the request is positive and a whole number of
hundredths (a two-decimal value). -/
def Request.decimalPos (req : Request) : Prop :=
  ∀ q ∈ req.amounts, 0 < q ∧ ∃ m : ℤ, q = (m : ℚ) / 100

/-- Every monetary amount in the request is a positive integer. -/
def Request.intPos (req : Request) : Prop :=
  ∀ q ∈ req.amounts, 0 < q ∧ ∃ n : ℕ, q = (n : ℚ)

theorem round2_pos_div (x : ℚ) (h : (10 : ℚ) ≤ x) :
    0 < round2 x ∧ ∃ m : ℤ, round2 x = (m : ℚ) / 100 := by
  refine ⟨?_, round2_eq_div x⟩
  have h10 := round2_ge 10 x (by exact_mod_cast h)
  push_cast at h10
  linarith

theorem LT.opStep_amounts (pop : List LT.Wallet) (st : LT.Stats) (it : LT.Iter)
    (hok : LT.Rng.Ok it.rng) :
    ∀ req ∈ (LT.opStep pop st it).2, req.decimalPos := by
  rcases it with ⟨k, r, e⟩
  cases k <;> simp only [LT.opStep] <;> (repeat' split) <;>
    simp_all [Request.decimalPos, Request.amounts] <;>
    (refine round2_pos_div _ ((hok 10 _ ?_).1)
     first
     | (rename_i hc hpost
        exact le_of_lt (lt_inf_iff.mpr hc))
     | norm_num)

theorem LT.buildStep_amounts (s : LT.RunState) (b : LT.BuildIter)
    (hok : UniformOk b.uniform) :
    ∀ req ∈ (LT.buildStep s b).2, req.decimalPos := by
  have h100 : (10 : ℚ) ≤ b.uniform 100 10000 := by
    have := (hok 100 10000 (by norm_num)).1
    linarith
  unfold LT.buildStep
  split <;> simp_all [Request.decimalPos, Request.amounts] <;>
    exact round2_pos_div _ h100

theorem LT.runOps_amounts (iters : List LT.Iter) :
    ∀ s : LT.RunState, (∀ it ∈ iters, LT.Rng.Ok it.rng) →
      ∀ req ∈ (LT.runOps s iters).2, req.decimalPos := by
  induction iters with
  | nil => intro s _ req hreq; simp [LT.runOps] at hreq
  | cons it rest ih =>
    intro s hoks req hreq
    simp only [LT.runOps, List.mem_append] at hreq
    rcases hreq with h | h
    · exact LT.opStep_amounts s.pop s.st it (hoks it (by simp)) req
        (by simpa [LT.opStepS] using h)
    · exact ih ((LT.opStepS s it).1) (fun i hi => hoks i (by simp [hi])) req h

theorem LT.runBuild_amounts (builds : List LT.BuildIter) :
    ∀ s : LT.RunState, (∀ b ∈ builds, UniformOk b.uniform) →
      ∀ req ∈ (LT.runBuild s builds).2, req.decimalPos := by
  induction builds with
  | nil => intro s _ req hreq; simp [LT.runBuild] at hreq
  | cons b rest ih =>
    intro s hoks req hreq
    simp only [LT.runBuild, List.mem_append] at hreq
    rcases hreq with h | h
    · exact LT.buildStep_amounts s b (hoks b (by simp)) req h
    · exact ih ((LT.buildStep s b).1) (fun i hi => hoks i (by simp [hi])) req h

theorem QT.perform_operation_amounts (op : String) (ids : List String)
    (r : QT.Rng) (e : QT.Env) (hok : QT.Rng.Ok r) :
    ∀ req ∈ (QT.perform_operation op ids r e).2, req.intPos := by
  unfold QT.perform_operation
  (repeat' split) <;> simp_all [Request.intPos, Request.amounts] <;>
    exact Nat.lt_of_lt_of_le (by norm_num) (hok 10 _ (by omega)).1

theorem QT.q_buildStep_amounts (s : QT.RunState) (b : QT.BuildIter)
    (hok : RandintOk b.randint) :
    ∀ req ∈ (QT.buildStep s b).2, req.intPos := by
  have h100 := (hok 100 5000 (by omega)).1
  unfold QT.buildStep
  split <;> simp_all [Request.intPos, Request.amounts] <;> omega

theorem QT.q_runOps_amounts (iters : List QT.Iter) :
    ∀ s : QT.RunState, (∀ it ∈ iters, QT.Rng.Ok it.rng) →
      ∀ req ∈ (QT.runOps s iters).2, req.intPos := by
  induction iters with
  | nil => intro s _ req hreq; simp [QT.runOps] at hreq
  | cons it rest ih =>
    intro s hoks req hreq
    simp only [QT.runOps, List.mem_append] at hreq
    rcases hreq with h | h
    · refine QT.perform_operation_amounts (QT.OpKind.str it.kind) s.pop it.rng it.env
        (hoks it (by simp)) req ?_
      simp only [QT.opStep] at h
      split at h <;> exact h
    · exact ih ((QT.opStep s it).1) (fun i hi => hoks i (by simp [hi])) req h

theorem QT.q_runBuild_amounts (builds : List QT.BuildIter) :
    ∀ s : QT.RunState, (∀ b ∈ builds, RandintOk b.randint) →
      ∀ req ∈ (QT.runBuild s builds).2, req.intPos := by
  induction builds with
  | nil => intro s _ req hreq; simp [QT.runBuild] at hreq
  | cons b rest ih =>
    intro s hoks req hreq
    simp only [QT.runBuild, List.mem_append] at hreq
    rcases hreq with h | h
    · exact QT.q_buildStep_amounts s b (hoks b (by simp)) req h
    · exact ih ((QT.buildStep s b).1) (fun i hi => hoks i (by simp [hi])) req h

/-- C7 counterexample: `load_test_wallets` draws `round(uniform(100,
10000), 2)` as an initial balance; the legitimate draw 100.05 is sent to
the service as 2001/20, which is not an integer. -/
theorem C7_counterexample :
    (LT.buildStep ⟨[], {}⟩ ⟨"w", "o", fun lo _ => lo + 1/20, true, "w", "o", 100⟩).2
      = [Request.postCreateWallet "w" "o" (round2 (100 + 1/20))] ∧
    round2 (100 + 1/20) = 2001/20 ∧
    (¬ ∃ n : ℤ, round2 (100 + 1/20) = (n : ℚ)) ∧
    (100 : ℚ) ≤ 100 + 1/20 ∧ (100 : ℚ) + 1/20 ≤ 10000 := by
  have hval : round2 (100 + 1/20) = 2001/20 := by
    have h1 : (100 : ℚ) * (100 + 1/20) = ((10005 : ℤ) : ℚ) := by norm_num
    have hfl : ⌊(100 : ℚ) * (100 + 1/20)⌋ = 10005 := by rw [h1, Int.floor_intCast]
    unfold round2
    rw [hfl, h1]
    norm_num
  refine ⟨rfl, hval, ?_, by norm_num, by norm_num⟩
  rintro ⟨n, hn⟩
  rw [hval] at hn
  have h20 : (2001 : ℚ) = 20 * (n : ℚ) := by
    field_simp at hn
    linarith
  have hz : (2001 : ℤ) = 20 * n := by exact_mod_cast h20
  omega

/-- C7 (amended): every amount `quick_load_test` sends (initial balances
and operation amounts) is a positive integer; `load_test_wallets`, by
contrast, sends positive two-decimal amounts (integer multiples of 1/100),
not necessarily integers. -/
theorem C7_positive_amounts
    (builds : List LT.BuildIter) (iters : List LT.Iter)
    (qbuilds : List QT.BuildIter) (qiters : List QT.Iter)
    (hb : ∀ b ∈ builds, UniformOk b.uniform)
    (hi : ∀ it ∈ iters, LT.Rng.Ok it.rng)
    (hqb : ∀ b ∈ qbuilds, RandintOk b.randint)
    (hqi : ∀ it ∈ qiters, QT.Rng.Ok it.rng) :
    (∀ req ∈ (LT.main builds iters).trace, req.decimalPos) ∧
    (∀ req ∈ (QT.main qbuilds qiters).trace, req.intPos) := by
  constructor
  · intro req hreq
    simp only [LT.main] at hreq
    split at hreq
    · exact LT.runBuild_amounts builds _ hb req hreq
    · simp only [List.mem_append] at hreq
      rcases hreq with h | h
      · exact LT.runBuild_amounts builds _ hb req h
      · exact LT.runOps_amounts iters _ hi req h
  · intro req hreq
    simp only [QT.main] at hreq
    split at hreq
    · exact QT.q_runBuild_amounts qbuilds _ hqb req hreq
    · simp only [List.mem_append] at hreq
      rcases hreq with h | h
      · exact QT.q_runBuild_amounts qbuilds _ hqb req h
      · exact QT.q_runOps_amounts qiters _ hqi req h

/-- Witness for C7 on a one-wallet, one-credit run of each script. -/
theorem C7_positive_amounts_witness :
    ((∀ b ∈ [(⟨"w", "o", fun lo _ => lo, true, "w", "o", 100⟩ : LT.BuildIter)],
        UniformOk b.uniform) ∧
     (∀ it ∈ [(⟨.credit, ⟨0, 0, fun lo _ => lo⟩, ⟨true, true, fun _ => 100⟩⟩ : LT.Iter)],
        LT.Rng.Ok it.rng)) ∧
    (∀ req ∈ (LT.main [⟨"w", "o", fun lo _ => lo, true, "w", "o", 100⟩]
        [⟨.credit, ⟨0, 0, fun lo _ => lo⟩, ⟨true, true, fun _ => 100⟩⟩]).trace,
      req.decimalPos) ∧
    (∀ req ∈ (QT.main [⟨"w", "o", fun lo _ => lo, true, "w"⟩]
        [⟨.credit, ⟨0, 0, fun lo _ => lo⟩, ⟨true⟩⟩]).trace,
      req.intPos) := by
  have hu : ∀ b ∈ [(⟨"w", "o", fun lo _ => lo, true, "w", "o", 100⟩ : LT.BuildIter)],
      UniformOk b.uniform := by
    intro b hb lo hi hle
    simp at hb
    subst hb
    exact ⟨le_rfl, hle⟩
  have hr : ∀ it ∈ [(⟨.credit, ⟨0, 0, fun lo _ => lo⟩,
      ⟨true, true, fun _ => 100⟩⟩ : LT.Iter)], LT.Rng.Ok it.rng := by
    intro it hit lo hi hle
    simp at hit
    subst hit
    exact ⟨le_rfl, hle⟩
  have hqb : ∀ b ∈ [(⟨"w", "o", fun lo _ => lo, true, "w"⟩ : QT.BuildIter)],
      RandintOk b.randint := by
    intro b hb lo hi hle
    simp at hb
    subst hb
    exact ⟨le_rfl, hle⟩
  have hqi : ∀ it ∈ [(⟨.credit, ⟨0, 0, fun lo _ => lo⟩, ⟨true⟩⟩ : QT.Iter)],
      QT.Rng.Ok it.rng := by
    intro it hit lo hi hle
    simp at hit
    subst hit
    exact ⟨le_rfl, hle⟩
  exact ⟨⟨hu, hr⟩,
    (C7_positive_amounts _ _ _ _ hu hr hqb hqi).1,
    (C7_positive_amounts _ _ _ _ hu hr hqb hqi).2⟩
